import Mathlib

set_option maxHeartbeats 1000000
set_option maxRecDepth 4000

/-!
Verification development for the PDR binary-encoding scripts.

The repository contains three encoder variants:
* `src/code/new_script.py` — `pack_field` / `build_blob_and_index` /
  `generate_header`: builds a blob, an index of `(recordHandle, offset)`
  pairs, and per-record access macros, from a fixed `FIELD_TYPES` table.
* `src/code/gen_script.py` — `get_value` / `generate_binary_data` /
  `generate_macros` / `generate_output`: builds a blob from YAML-declared
  field-type tables, iterating the record's own fields.
* `src/script/code.py` — `pack_string` with the 256-byte truncation cap.

Python `dict` values of record fields are embedded as the mutual
inductive `Value`/`Obj` (ints, strings and nested dicts; dicts keep
insertion order, as Python dicts do).  Exceptions are embedded as
`Except PyErr`.  Machine integers are `Int`/`Nat` with explicit bounds.
-/

abbrev Bytes := List Nat

/-- Little-endian base-256 digits of `n`, exactly `len` bytes
(the byte list produced by Python `int.to_bytes(len, 'little')`
when the value fits). -/
def leBytes : Nat → Nat → Bytes
  | _, 0 => []
  | n, len + 1 => n % 256 :: leBytes (n / 256) len

/-- Numeric value of a little-endian byte list (decoder used to state
that `leBytes` really is the little-endian representation). -/
def fromLE : Bytes → Nat
  | [] => 0
  | b :: bs => b + 256 * fromLE bs

mutual
/-- A JSON/YAML scalar or mapping, as the Python scripts see record and
field-type values: an int, a str, or a nested dict. -/
inductive Value where
  | vint : Int → Value
  | vstr : String → Value
  | vdict : Obj → Value

/-- An ordered Python dict with string keys (insertion order kept). -/
inductive Obj where
  | onil : Obj
  | ocons : String → Value → Obj → Obj
end

/-- `dict.get(key)` / `key in dict` lookup: first binding of `key`. -/
def Obj.find : Obj → String → Option Value
  | .onil, _ => none
  | .ocons k v r, key => if k = key then some v else Obj.find r key

/-- `key in dict`. -/
def Obj.hasKey (o : Obj) (k : String) : Bool := (o.find k).isSome

/-- Whether a value is a dict (`isinstance(value, dict)`). -/
def Value.isDictB : Value → Bool
  | .vdict _ => true
  | _ => false

/-- Build an `Obj` from an association list (dict literal). -/
def objOf : List (String × Value) → Obj
  | [] => .onil
  | (k, v) :: r => .ocons k v (objOf r)

/-- The Python exceptions the embedded scripts can raise, with the data
their messages carry. -/
inductive PyErr where
  /-- `OverflowError` from `int.to_bytes` when the value does not fit. -/
  | overflowError
  /-- `ValueError("Unsupported field type '{ftype}'")` in `pack_field`. -/
  | unsupportedFieldType (ftype : String)
  /-- `ValueError("Unknown pdr_type '{pdr_type}' in {base}.json")` in
  `build_blob_and_index`. -/
  | unknownPdrType (pdrType : Option Value) (base : String)
  /-- `KeyError("Missing field '{fname}' for record '{base}_{idx}'")` in
  `build_blob_and_index`. -/
  | missingField (fname base : String) (idx : Nat)
  /-- `ValueError`/`TypeError` from `int(value)` on a non-numeric value. -/
  | intConvError
  /-- `OverflowError`/`ValueError`/`TypeError` from `float(value)`. -/
  | floatConvError
  /-- `AttributeError` from `value.encode(...)` when `value` is not a str. -/
  | attributeError
  /-- `UnicodeEncodeError` from a codec that rejects a code point. -/
  | unicodeEncodeError
  /-- `KeyError` from a direct dict index such as `STRING_HANDLERS[t]`. -/
  | keyError (key : String)

/-- `True` iff the computation did not raise. -/
def exOk {α : Type} : Except PyErr α → Bool
  | .ok _ => true
  | .error _ => false

/-- Decimal digit value of a character, if it is a digit. -/
def digitVal (c : Char) : Option Nat :=
  if 48 ≤ c.toNat ∧ c.toNat ≤ 57 then some (c.toNat - 48) else none

/-- Fold decimal digits into a number; `none` on a non-digit. -/
def digitsValAux : List Char → Nat → Option Nat
  | [], acc => some acc
  | c :: r, acc =>
    match digitVal c with
    | some d => digitsValAux r (acc * 10 + d)
    | none => none

/-- Parse a nonempty all-digit character list. -/
def parseNatDigits (l : List Char) : Option Nat :=
  match l with
  | [] => none
  | _ => digitsValAux l 0

/-- Python `int(s)` on a string: optional sign followed by decimal
digits (whitespace/underscore forms are not modelled; the records in
this repository use plain decimal literals). -/
def pyIntOfString (s : String) : Option Int :=
  match s.data with
  | [] => none
  | c :: rest =>
    if c = '-' then (parseNatDigits rest).map (fun n => -(n : Int))
    else if c = '+' then (parseNatDigits rest).map (fun n => (n : Int))
    else (parseNatDigits s.data).map (fun n => (n : Int))

/-- Python `int(value)`: identity on ints, decimal parse on strings,
`TypeError` on dicts. -/
def pyInt : Value → Except PyErr Int
  | .vint n => .ok n
  | .vstr s =>
    match pyIntOfString s with
    | some n => .ok n
    | none => .error .intConvError
  | .vdict _ => .error .intConvError

/-- Python `int(n).to_bytes(len, 'little')`: little-endian bytes when
`0 ≤ n < 256 ^ len`, `OverflowError` otherwise. -/
def intToBytes (n : Int) (len : Nat) : Except PyErr Bytes :=
  if 0 ≤ n ∧ n < (256 : Int) ^ len then .ok (leBytes n.toNat len)
  else .error .overflowError

/-- Python `int(n).to_bytes(len, 'little', signed=True)`: two's
complement little-endian bytes when the value fits, `OverflowError`
otherwise. -/
def intToBytesSigned (n : Int) (len : Nat) : Except PyErr Bytes :=
  if -((256 : Int) ^ len / 2) ≤ n ∧ n < (256 : Int) ^ len / 2 then
    .ok (leBytes (n % ((256 : Int) ^ len)).toNat len)
  else .error .overflowError

/-- UTF-8 encoding of one code point (standard algorithm). -/
def utf8EncodeChar (c : Nat) : Bytes :=
  if c < 128 then [c]
  else if c < 2048 then [192 + c / 64, 128 + c % 64]
  else if c < 65536 then [224 + c / 4096, 128 + c / 64 % 64, 128 + c % 64]
  else [240 + c / 262144, 128 + c / 4096 % 64, 128 + c / 64 % 64, 128 + c % 64]

/-- The code points of a string. -/
def codePoints (s : String) : List Nat := s.data.map Char.toNat

/-- Python `s.encode('utf-8')`. -/
def utf8Bytes (s : String) : Bytes := (codePoints s).flatMap utf8EncodeChar

/-- UTF-16 code units of one code point (surrogate pair above U+FFFF). -/
def utf16Units (c : Nat) : List Nat :=
  if c < 65536 then [c]
  else [55296 + (c - 65536) / 1024, 56320 + (c - 65536) % 1024]

/-- Python `s.encode('utf-16le')`. -/
def utf16leBytes (s : String) : Bytes :=
  ((codePoints s).flatMap utf16Units).flatMap (fun u => [u % 256, u / 256])

/-- Python `s.encode('utf-16be')`. -/
def utf16beBytes (s : String) : Bytes :=
  ((codePoints s).flatMap utf16Units).flatMap (fun u => [u / 256, u % 256])

/-- Python `s.encode('utf-32le')` payload (4-byte little-endian units). -/
def utf32leBytes (s : String) : Bytes :=
  (codePoints s).flatMap (fun c => [c % 256, c / 256 % 256, c / 65536 % 256, c / 16777216 % 256])

/-- Python `s.encode('iso-8859-1')`: code points below 256 map to
themselves, anything else raises `UnicodeEncodeError`. -/
def latin1Bytes (s : String) : Except PyErr Bytes :=
  if (codePoints s).all (· < 256) then .ok (codePoints s)
  else .error .unicodeEncodeError

/-- Python `s.encode('ascii')`. -/
def asciiBytes (s : String) : Except PyErr Bytes :=
  if (codePoints s).all (· < 128) then .ok (codePoints s)
  else .error .unicodeEncodeError

/-- The single-quote character used by Python `repr`. -/
def quoteChar : Char := Char.ofNat 39

/-- Wrap a string in single quotes (Python `repr` of a simple string;
escaping of quotes inside the string is not modelled). -/
def quoteS (s : String) : String :=
  String.singleton quoteChar ++ s ++ String.singleton quoteChar

mutual
/-- Python `repr(value)` for the embedded values. -/
def valueRepr : Value → String
  | .vint n => toString n
  | .vstr s => quoteS s
  | .vdict o => "\x7b" ++ objReprBody o ++ "\x7d"

/-- Comma-separated `'key': value` body of a dict repr. -/
def objReprBody : Obj → String
  | .onil => ""
  | .ocons k v .onil => quoteS k ++ ": " ++ valueRepr v
  | .ocons k v (.ocons k2 v2 r) =>
    quoteS k ++ ": " ++ valueRepr v ++ ", " ++ objReprBody (.ocons k2 v2 r)
end

/-- Python `str(value)`: decimal for ints, identity for strings, the
dict repr for dicts. -/
def pyStr : Value → String
  | .vint n => toString n
  | .vstr s => s
  | .vdict o => valueRepr (.vdict o)

/-! ## `src/code/new_script.py` -/

/-- The field list of `FIELD_TYPES['CompactNumericSensorPDR']`
(new_script.py lines 15-38), in declared order. -/
def FIELD_TYPES_CompactNumericSensorPDR : List (String × String) :=
  [("recordHandle", "uint32"),
   ("PDRHeaderVersion", "uint8"),
   ("PDRType", "uint8"),
   ("recordChangeNumber", "uint8"),
   ("dataLength", "uint16"),
   ("PLDMTerminusHandle", "uint8"),
   ("sensorID", "uint16"),
   ("entityType", "uint16"),
   ("entityInstanceNumber", "uint16"),
   ("containerID", "uint16"),
   ("sensorNameStringByteLength", "uint16"),
   ("baseUnit", "uint16"),
   ("unitModifier", "uint16"),
   ("occurrenceRate", "uint8"),
   ("rangeFieldSupport", "uint8"),
   ("warningHigh", "uint8"),
   ("warningLow", "uint8"),
   ("criticalHigh", "uint8"),
   ("criticalLow", "uint8"),
   ("fatalHigh", "uint8"),
   ("fatalLow", "uint8"),
   ("sensorNameString", "strUTF8")]

/-- The `FIELD_TYPES` registry of new_script.py: record-type name to
ordered field list. -/
def FIELD_TYPES : List (String × List (String × String)) :=
  [("CompactNumericSensorPDR", FIELD_TYPES_CompactNumericSensorPDR)]

/-- new_script.py `pack_field` (lines 76-87): uint8/16/32 little-endian,
strUTF8 as UTF-8 plus a 0x00 terminator, every other type raises
`ValueError("Unsupported field type ...")`. -/
def pack_field (value : Value) (ftype : String) : Except PyErr Bytes :=
  if ftype = "uint8" then
    match pyInt value with
    | .error e => .error e
    | .ok n => intToBytes n 1
  else if ftype = "uint16" then
    match pyInt value with
    | .error e => .error e
    | .ok n => intToBytes n 2
  else if ftype = "uint32" then
    match pyInt value with
    | .error e => .error e
    | .ok n => intToBytes n 4
  else if ftype = "strUTF8" then .ok (utf8Bytes (pyStr value) ++ [0])
  else .error (.unsupportedFieldType ftype)

/-- The inner field loop of `build_blob_and_index` (lines 103-106): pack
each schema field in declared order, raising `KeyError` on a field the
record lacks; the bytes appended to the blob are the concatenation of
the per-field encodings. -/
def packRecord (rec : Obj) (base : String) (idx : Nat) :
    List (String × String) → Except PyErr Bytes
  | [] => .ok []
  | (fname, ftype) :: rest =>
    match rec.find fname with
    | none => .error (.missingField fname base idx)
    | some v =>
      match pack_field v ftype with
      | .error e => .error e
      | .ok b =>
        match packRecord rec base idx rest with
        | .error e => .error e
        | .ok bs => .ok (b ++ bs)

/-- `rec.get('pdr_type')` followed by the `pdr_type not in FIELD_TYPES`
check (lines 99-101): the schema for a record, if its declared type is
a known key. -/
def getFieldTypes (rec : Obj) : Option (String × List (String × String)) :=
  match rec.find "pdr_type" with
  | some (.vstr t) =>
    match FIELD_TYPES.lookup t with
    | some fts => some (t, fts)
    | none => none
  | _ => none

/-- The three outputs of `build_blob_and_index`: blob, index of
`(record_handle, offset)` pairs, and `(base, idx, pdr_type, offset)`
tuples for macro generation. -/
structure BuildOut where
  blob : Bytes
  index : List (Option Value × Nat)
  offs : List (String × Nat × String × Nat)

/-- The loop of `build_blob_and_index` (lines 97-110), with the mutable
`blob`/`index`/`offsets` accumulators made explicit: for each record the
offset is the current blob length, the type is resolved (raising on an
unknown type), the fields are packed and appended, and the handle/offset
pairs are appended. -/
def buildLoop : List (Obj × String × Nat) → Bytes → List (Option Value × Nat) →
    List (String × Nat × String × Nat) → Except PyErr BuildOut
  | [], blob, index, offs => .ok ⟨blob, index, offs⟩
  | (rec, base, idx) :: rest, blob, index, offs =>
    match getFieldTypes rec with
    | none => .error (.unknownPdrType (rec.find "pdr_type") base)
    | some (t, fts) =>
      match packRecord rec base idx fts with
      | .error e => .error e
      | .ok bytes =>
        buildLoop rest (blob ++ bytes)
          (index ++ [(rec.find "recordHandle", blob.length)])
          (offs ++ [(base, idx, t, blob.length)])

/-- new_script.py `build_blob_and_index` (lines 90-112). -/
def build_blob_and_index (records : List (Obj × String × Nat)) : Except PyErr BuildOut :=
  buildLoop records [] [] []

/-- Compositional form of the build loop, used to reason about it: the
first component's offset is the running length `off`. -/
def buildSpec : List (Obj × String × Nat) → Nat → Except PyErr BuildOut
  | [], _ => .ok ⟨[], [], []⟩
  | (rec, base, idx) :: rest, off =>
    match getFieldTypes rec with
    | none => .error (.unknownPdrType (rec.find "pdr_type") base)
    | some (t, fts) =>
      match packRecord rec base idx fts with
      | .error e => .error e
      | .ok bytes =>
        match buildSpec rest (off + bytes.length) with
        | .error e => .error e
        | .ok o =>
          .ok ⟨bytes ++ o.blob, (rec.find "recordHandle", off) :: o.index,
               (base, idx, t, off) :: o.offs⟩

/-- The encoding of one record: resolve its schema and pack its fields
(the per-record slice of the blob). -/
def encodeRecord (rec : Obj) (base : String) (idx : Nat) : Except PyErr Bytes :=
  match getFieldTypes rec with
  | none => .error (.unknownPdrType (rec.find "pdr_type") base)
  | some (_, fts) => packRecord rec base idx fts

/-- The bytes a record contributes to the blob (empty if encoding raised;
only used under hypotheses that make encoding succeed). -/
def encBytes (rec : Obj) (base : String) (idx : Nat) : Bytes :=
  match encodeRecord rec base idx with
  | .ok b => b
  | .error _ => []

/-- The encoded byte length of one record. -/
def encLen (rec : Obj) (base : String) (idx : Nat) : Nat :=
  (encBytes rec base idx).length

/-- One emitted `#define` of `generate_header` (lines 154-165), kept
structurally: the per-record offset macro `{name}_offset`, and one field
access macro per schema field, whose text reads the field through a
struct cast at the record's offset:
`((({pdr_type}*)(pdr_blob + {name}_offset))->{fname})`. -/
inductive HeaderItem where
  | offsetDef (name : String) (offset : Nat)
  | fieldAccessDef (name : String) (fname : String) (castType : String)
deriving DecidableEq

/-- The macros `generate_header` emits for one `(base, idx, pdr_type,
offset)` tuple: the offset macro, then one access macro per field of
`FIELD_TYPES[pdr_type]` (a `KeyError` if the type is unknown, as with a
direct dict index). -/
def recordHeaderItems (base : String) (idx : Nat) (pdrType : String) (offset : Nat) :
    Except PyErr (List HeaderItem) :=
  match FIELD_TYPES.lookup pdrType with
  | none => .error (.keyError pdrType)
  | some fts =>
    .ok (.offsetDef (base ++ "_" ++ toString idx) offset ::
      fts.map (fun p => .fieldAccessDef (base ++ "_" ++ toString idx) p.1 pdrType))

/-- The macro-emitting loop of `generate_header` over all records. -/
def generate_header_items : List (String × Nat × String × Nat) →
    Except PyErr (List HeaderItem)
  | [] => .ok []
  | (base, idx, t, off) :: rest =>
    match recordHeaderItems base idx t off with
    | .error e => .error e
    | .ok items =>
      match generate_header_items rest with
      | .error e => .error e
      | .ok more => .ok (items ++ more)

/-! ## `src/script/code.py` -/

/-- The `STRING_HANDLERS` table of code.py (lines 17-23), as one
dispatch: `strASCII` uses the iso-8859-1 codec plus a 1-byte terminator,
`strUTF-8` UTF-8 plus a 1-byte terminator, `strUTF-16` a BOM plus
UTF-16LE plus a 2-byte terminator, `strUTF-16LE`/`strUTF-16BE` the plain
encodings plus a 2-byte terminator; an unknown key raises `KeyError`. -/
def stringHandler (string_type : String) (s : String) : Except PyErr Bytes :=
  if string_type = "strASCII" then
    match latin1Bytes s with
    | .error e => .error e
    | .ok b => .ok (b ++ [0])
  else if string_type = "strUTF-8" then .ok (utf8Bytes s ++ [0])
  else if string_type = "strUTF-16" then .ok ([255, 254] ++ utf16leBytes s ++ [0, 0])
  else if string_type = "strUTF-16LE" then .ok (utf16leBytes s ++ [0, 0])
  else if string_type = "strUTF-16BE" then .ok (utf16beBytes s ++ [0, 0])
  else .error (.keyError string_type)

/-- code.py `pack_string` (lines 25-42).  The returned Bool records
whether the over-length warning was printed to stderr (`True` exactly
when the encoded form exceeded 256 bytes and was truncated to 255
content bytes plus a final 0x00). -/
def pack_string (value : String) (string_type : String) : Except PyErr (Bytes × Bool) :=
  if value = "" then
    if string_type = "strUTF-16" ∨ string_type = "strUTF-16LE" ∨ string_type = "strUTF-16BE" then
      .ok ((if string_type ≠ "strUTF-16" then [0, 0] else [255, 254, 0, 0]), false)
    else .ok ([0], false)
  else
    match stringHandler string_type value with
    | .error e => .error e
    | .ok encoded =>
      if 256 < encoded.length then .ok (encoded.take 255 ++ [0], true)
      else .ok (encoded, false)

/-! ## `src/code/gen_script.py` -/

/-- gen_script.py `get_value` (lines 36-45): look the key up in the
dict, then inside a `commonHeader` sub-dict, and fall back to the string
`"unknown"` when both fail. -/
def get_value (data_dict : Obj) (key : String) : Value :=
  match data_dict.find key with
  | some v => v
  | none =>
    match data_dict.find "commonHeader" with
    | some (.vdict sub) =>
      match sub.find key with
      | some v => v
      | none => .vstr "unknown"
    | _ => .vstr "unknown"

/-- Number of binary digits of `n` (fuel-driven so that it reduces). -/
def bitLenAux : Nat → Nat → Nat
  | 0, _ => 0
  | _ + 1, 0 => 0
  | fuel + 1, n + 1 => bitLenAux fuel ((n + 1) / 2) + 1

/-- Number of binary digits of `n` (0 for 0). -/
def bitLen (n : Nat) : Nat := bitLenAux (n + 1) n

/-- Lower-case hexadecimal digit character. -/
def hexDigit (n : Nat) : Char :=
  if n < 10 then Char.ofNat (48 + n) else Char.ofNat (87 + n)

/-- The 13 hex digits of a 52-bit mantissa fraction, most significant
first (the digits after `0x1.` in Python `float.hex()`). -/
def mantissaHexDigits (frac : Nat) : String :=
  String.mk ((List.range 13).map (fun i => hexDigit (frac / 16 ^ (12 - i) % 16)))

/-- Round a positive integer to an IEEE-754 double mantissa/exponent
pair: a mantissa in `[2^52, 2^53)` and the power-of-two exponent, with
round-half-to-even when more than 53 bits are present. -/
def floatNormalize (n : Nat) : Nat × Nat :=
  let k := bitLen n - 1
  if k ≤ 52 then (n * 2 ^ (52 - k), k)
  else
    let shift := k - 52
    let q := n / 2 ^ shift
    let r := n % 2 ^ shift
    let half := 2 ^ (shift - 1)
    let q2 := if half < r ∨ (r = half ∧ q % 2 = 1) then q + 1 else q
    if q2 = 2 ^ 53 then (2 ^ 52, k + 1) else (q2, k)

/-- Python `float(n).hex()` for a nonnegative integer `n`: `0x0.0p+0`
for zero, otherwise `0x1.` + 13 mantissa hex digits + `p+` + exponent;
`OverflowError` for integers beyond the double range. -/
def pyFloatHexNat (n : Nat) : Except PyErr String :=
  if n = 0 then .ok "0x0.0p+0"
  else
    let m := floatNormalize n
    if 1024 ≤ m.2 then .error .floatConvError
    else .ok ("0x1." ++ mantissaHexDigits (m.1 - 2 ^ 52) ++ "p+" ++ toString m.2)

/-- Python `float(value).hex()` on a record value: exact conversion for
ints (string-to-float parsing is not modelled — the PDR records feed
this branch integers), `TypeError` for dicts. -/
def pyFloatHex (v : Value) : Except PyErr String :=
  match v with
  | .vint n =>
    if n < 0 then
      match pyFloatHexNat n.natAbs with
      | .error e => .error e
      | .ok s => .ok ("-" ++ s)
    else pyFloatHexNat n.toNat
  | _ => .error .floatConvError

/-- Python `value.encode('utf-8')`: only strings have `.encode`. -/
def strEncodeUTF8 (v : Value) : Except PyErr Bytes :=
  match v with
  | .vstr s => .ok (utf8Bytes s)
  | _ => .error .attributeError

/-- Python `value.encode('utf-16')`: BOM plus UTF-16LE. -/
def strEncodeUTF16 (v : Value) : Except PyErr Bytes :=
  match v with
  | .vstr s => .ok ([255, 254] ++ utf16leBytes s)
  | _ => .error .attributeError

/-- Python `value.encode('utf-32')`: BOM plus UTF-32LE. -/
def strEncodeUTF32 (v : Value) : Except PyErr Bytes :=
  match v with
  | .vstr s => .ok ([255, 254, 0, 0] ++ utf32leBytes s)
  | _ => .error .attributeError

/-- Python `value.encode('ascii')`. -/
def strEncodeASCII (v : Value) : Except PyErr Bytes :=
  match v with
  | .vstr s => asciiBytes s
  | _ => .error .attributeError

/-- The per-field dispatch of `generate_binary_data` (lines 55-78): the
type from `get_value` selects the packer; `float` emits the UTF-8 bytes
of `float(value).hex()` plus a 0x00; the three string types append one
0x00 after the codec output; any other type (a dict-typed entry, or a
name such as `"unknown"`, `uint64`, `sint64`, `float32`) matches no
branch and contributes no bytes. -/
def genFieldBytes (value : Value) (ft : Value) : Except PyErr Bytes :=
  match ft with
  | .vstr t =>
    if t = "uint8" then
      match pyInt value with
      | .error e => .error e
      | .ok n => intToBytes n 1
    else if t = "uint16" then
      match pyInt value with
      | .error e => .error e
      | .ok n => intToBytes n 2
    else if t = "uint32" then
      match pyInt value with
      | .error e => .error e
      | .ok n => intToBytes n 4
    else if t = "sint8" then
      match pyInt value with
      | .error e => .error e
      | .ok n => intToBytesSigned n 1
    else if t = "sint16" then
      match pyInt value with
      | .error e => .error e
      | .ok n => intToBytesSigned n 2
    else if t = "sint32" then
      match pyInt value with
      | .error e => .error e
      | .ok n => intToBytesSigned n 4
    else if t = "float" then
      match pyFloatHex value with
      | .error e => .error e
      | .ok s => .ok (utf8Bytes s ++ [0])
    else if t = "strUTF8" then
      match strEncodeUTF8 value with
      | .error e => .error e
      | .ok b => .ok (b ++ [0])
    else if t = "strUTF16" then
      match strEncodeUTF16 value with
      | .error e => .error e
      | .ok b => .ok (b ++ [0])
    else if t = "strUTF32" then
      match strEncodeUTF32 value with
      | .error e => .error e
      | .ok b => .ok (b ++ [0])
    else if t = "strASCII" then
      match strEncodeASCII value with
      | .error e => .error e
      | .ok b => .ok (b ++ [0])
    else .ok []
  | _ => .ok []

/-- gen_script.py `generate_binary_data` (lines 47-79): walk the
record's own fields in order; recurse into dict values (passing the same
`field_types`), otherwise dispatch on `get_value(field_types, field)`;
fields whose type matches no branch are silently skipped. -/
def generate_binary_data : Obj → Obj → Except PyErr Bytes
  | .onil, _ => .ok []
  | .ocons field value rest, fts =>
    match value with
    | .vdict sub =>
      match generate_binary_data sub fts with
      | .error e => .error e
      | .ok sb =>
        match generate_binary_data rest fts with
        | .error e => .error e
        | .ok rb => .ok (sb ++ rb)
    | v =>
      match genFieldBytes v (get_value fts field) with
      | .error e => .error e
      | .ok fb =>
        match generate_binary_data rest fts with
        | .error e => .error e
        | .ok rb => .ok (fb ++ rb)

/-- The inner loop of `generate_macros` (lines 85-93) over one nested
sub-dict: emit `(f"{pdr_file_name}_{index}_{field}", value)` for each
subfield whose name equals `field_name`, skipping the rest. -/
def matchingSubEntries : Obj → String → Nat → String → List (String × Value)
  | .onil, _, _, _ => []
  | .ocons sf sv rest, f, i, fn =>
    if sf = fn then
      (f ++ "_" ++ toString i ++ "_" ++ sf, sv) :: matchingSubEntries rest f i fn
    else matchingSubEntries rest f i fn

/-- gen_script.py `generate_macros` (lines 81-94): only fields whose
value is a dict are visited, and only their subfields matching
`field_name` produce a macro; the macro binds the subfield's VALUE.
Top-level non-dict fields produce nothing. -/
def generate_macros : Obj → String → Nat → String → List (String × Value)
  | .onil, _, _, _ => []
  | .ocons _ value rest, f, i, fn =>
    (match value with
     | .vdict sub => matchingSubEntries sub f i fn
     | _ => []) ++ generate_macros rest f i fn

/-- The per-file loop of `generate_output` (lines 124-131): records
without a `pdr_type` key are skipped with `continue`; otherwise the
field-type table is `yaml_data.get(pdr_type, {})` (an unknown or
non-string type yields the empty table) and the record's bytes are
appended. -/
def fileBinary : List Obj → List (String × Obj) → Except PyErr Bytes
  | [], _ => .ok []
  | sub :: rest, yaml_data =>
    match sub.find "pdr_type" with
    | none => fileBinary rest yaml_data
    | some t =>
      match generate_binary_data sub
          (match t with
           | .vstr s => ((yaml_data.lookup s).getD .onil)
           | _ => .onil) with
      | .error e => .error e
      | .ok b =>
        match fileBinary rest yaml_data with
        | .error e => .error e
        | .ok r => .ok (b ++ r)

/-- gen_script.py `generate_output` (lines 121-139), restricted to its
binary-data accumulation over the list-of-record-lists that
`load_json_files` produces. -/
def generate_output_binary : List (List Obj) → List (String × Obj) → Except PyErr Bytes
  | [], _ => .ok []
  | f :: rest, yaml_data =>
    match fileBinary f yaml_data with
    | .error e => .error e
    | .ok b =>
      match generate_output_binary rest yaml_data with
      | .error e => .error e
      | .ok r => .ok (b ++ r)

/-! ## Concrete records used by the witnesses and counterexamples -/

/-- A fully-populated `CompactNumericSensorPDR` record (all 22 schema
fields plus the `pdr_type` tag), parameterized by handle, sensor id and
name so the demos below can vary them. -/
def mkSensorRec (handle sensorID : Int) (name : String) : Obj := objOf
  [("pdr_type", .vstr "CompactNumericSensorPDR"),
   ("recordHandle", .vint handle),
   ("PDRHeaderVersion", .vint 1),
   ("PDRType", .vint 2),
   ("recordChangeNumber", .vint 0),
   ("dataLength", .vint 29),
   ("PLDMTerminusHandle", .vint 1),
   ("sensorID", .vint sensorID),
   ("entityType", .vint 4),
   ("entityInstanceNumber", .vint 1),
   ("containerID", .vint 0),
   ("sensorNameStringByteLength", .vint 2),
   ("baseUnit", .vint 2),
   ("unitModifier", .vint 0),
   ("occurrenceRate", .vint 0),
   ("rangeFieldSupport", .vint 0),
   ("warningHigh", .vint 70),
   ("warningLow", .vint 10),
   ("criticalHigh", .vint 80),
   ("criticalLow", .vint 5),
   ("fatalHigh", .vint 90),
   ("fatalLow", .vint 1),
   ("sensorNameString", .vstr name)]

/-- Record with handle 5. -/
def recH5 : Obj := mkSensorRec 5 3 "T"

/-- A second, distinct record that also declares handle 5. -/
def recH5b : Obj := mkSensorRec 5 7 "U"

/-- Record with handle 6. -/
def recH6 : Obj := mkSensorRec 6 4 "V"

/-- A two-record RecordSet with distinct handles 5 and 6. -/
def demoSet : List (Obj × String × Nat) := [(recH5, "a", 0), (recH6, "b", 0)]

/-- The output `build_blob_and_index` produces on `demoSet`. -/
def demoOut : BuildOut :=
  match build_blob_and_index demoSet with
  | .ok o => o
  | .error _ => ⟨[], [], []⟩

/-- A two-record RecordSet whose records both declare handle 5. -/
def dupSet : List (Obj × String × Nat) := [(recH5, "a", 0), (recH5b, "b", 0)]

/-- A record that declares a known type but stops after the first two
schema fields: `PDRType` (the third declared field) is missing. -/
def recMissing : Obj := objOf
  [("pdr_type", .vstr "CompactNumericSensorPDR"),
   ("recordHandle", .vint 5),
   ("PDRHeaderVersion", .vint 1)]

/-- A record whose declared type has no `FIELD_TYPES` entry. -/
def recBogus : Obj := objOf [("pdr_type", .vstr "Bogus"), ("recordHandle", .vint 9)]

/-- Record with two equal-valued uint8 fields (order-insensitive). -/
def c2recEq : Obj := objOf [("a", .vint 5), ("b", .vint 5)]

/-- Schema `a:uint8, b:uint8`. -/
def c2schemaA : List (String × String) := [("a", "uint8"), ("b", "uint8")]

/-- The same two fields in the opposite declared order. -/
def c2schemaB : List (String × String) := [("b", "uint8"), ("a", "uint8")]

/-- Record with differently-valued fields of different widths. -/
def c2recNe : Obj := objOf [("a", .vint 1), ("b", .vint 2)]

/-- A 300-character string, the spec's over-length scenario. -/
def xStr : String := String.mk (List.replicate 300 'x')

/-- Registry for the gen_script demos: one known type `T`. -/
def c7yaml : List (String × Obj) := [("T", objOf [("a", .vstr "uint8")])]

/-- A record whose `pdr_type` is the unknown `X`. -/
def c7recX : Obj := objOf [("pdr_type", .vstr "X"), ("a", .vint 7)]

/-- A record of the known type `T`. -/
def c7recT : Obj := objOf [("pdr_type", .vstr "T"), ("a", .vint 9)]

/-- Field-type table declaring field `f` with the spec's name `float32`. -/
def c8fts32 : Obj := objOf [("f", .vstr "float32")]

/-- Field-type table declaring field `f` with gen_script's name `float`. -/
def c8ftsFloat : Obj := objOf [("f", .vstr "float")]

/-- Record whose field `f` holds the integer 1. -/
def c8rec : Obj := objOf [("f", .vint 1)]

/-! ## Helper lemmas -/

/-- `leBytes` always produces exactly `len` bytes. -/
theorem leBytes_length : ∀ (len n : Nat), (leBytes n len).length = len
  | 0, _ => rfl
  | len + 1, n => by simp [leBytes, leBytes_length len]

/-- Decoding the little-endian bytes of `n` gives back `n` modulo the
width: `leBytes` really is the little-endian base-256 representation. -/
theorem fromLE_leBytes : ∀ (len n : Nat), fromLE (leBytes n len) = n % 256 ^ len
  | 0, n => by simp [leBytes, fromLE, Nat.mod_one]
  | len + 1, n => by
    simp only [leBytes, fromLE, fromLE_leBytes len]
    rw [pow_succ, mul_comm (256 ^ len) 256]
    exact (Nat.mod_mul).symm

/-- The sum of a shorter prefix is at most the sum of a longer one. -/
theorem sumTake_le (l : List Nat) {i j : Nat} (h : i ≤ j) :
    (l.take i).sum ≤ (l.take j).sum := by
  have h1 : l.take i = (l.take j).take i := by rw [List.take_take, min_eq_left h]
  rw [h1]
  conv_rhs => rw [← List.take_append_drop i (l.take j)]
  rw [List.sum_append]
  exact Nat.le_add_right _ _

/-- Packing a concatenation of field lists packs the first part, then
the second, and concatenates — the field loop processes fields strictly
in declared order and appends each field's bytes in place. -/
theorem packRecord_append (rec : Obj) (base : String) (idx : Nat)
    (l1 l2 : List (String × String)) :
    packRecord rec base idx (l1 ++ l2) =
      match packRecord rec base idx l1 with
      | .error e => .error e
      | .ok b1 =>
        match packRecord rec base idx l2 with
        | .error e => .error e
        | .ok b2 => .ok (b1 ++ b2) := by
  induction l1 with
  | nil =>
    simp only [List.nil_append, packRecord]
    cases packRecord rec base idx l2 <;> simp
  | cons hd tl ih =>
    obtain ⟨fname, ftype⟩ := hd
    cases hf : rec.find fname with
    | none => simp only [List.cons_append, packRecord, hf]
    | some v =>
      cases hp : pack_field v ftype with
      | error e => simp only [List.cons_append, packRecord, hf, hp]
      | ok b =>
        simp only [List.cons_append, packRecord, hf, hp, List.append_eq, ih]
        cases packRecord rec base idx tl with
        | error e => rfl
        | ok b1 =>
          cases packRecord rec base idx l2 with
          | error e => rfl
          | ok b2 => simp

/-- The imperative build loop equals the compositional `buildSpec`, the
current blob length standing for the next record's offset. -/
theorem buildLoop_eq_spec (entries : List (Obj × String × Nat)) :
    ∀ blob index offs,
    buildLoop entries blob index offs =
      match buildSpec entries blob.length with
      | .error e => .error e
      | .ok o => .ok ⟨blob ++ o.blob, index ++ o.index, offs ++ o.offs⟩ := by
  induction entries with
  | nil => intro blob index offs; simp [buildLoop, buildSpec]
  | cons e rest ih =>
    obtain ⟨rec, base, idx⟩ := e
    intro blob index offs
    cases hft : getFieldTypes rec with
    | none => simp only [buildLoop, buildSpec, hft]
    | some tf =>
      obtain ⟨t, fts⟩ := tf
      cases hpk : packRecord rec base idx fts with
      | error e2 => simp only [buildLoop, buildSpec, hft, hpk]
      | ok bytes =>
        simp only [buildLoop, buildSpec, hft, hpk]
        rw [ih (blob ++ bytes)]
        simp only [List.length_append]
        cases buildSpec rest (blob.length + bytes.length) with
        | error e2 => rfl
        | ok o => simp

/-- `build_blob_and_index` is `buildSpec` started at offset 0. -/
theorem build_eq_spec (records : List (Obj × String × Nat)) :
    build_blob_and_index records = buildSpec records 0 := by
  have h := buildLoop_eq_spec records [] [] []
  simp only [List.length_nil, List.nil_append] at h
  rw [build_blob_and_index, h]
  cases buildSpec records 0 with
  | error e => rfl
  | ok o => rfl

/-- `buildSpec` splits over a concatenation of record lists, the second
part starting where the first part's blob ends. -/
theorem buildSpec_append (l1 l2 : List (Obj × String × Nat)) :
    ∀ n, buildSpec (l1 ++ l2) n =
      match buildSpec l1 n with
      | .error e => .error e
      | .ok o1 =>
        match buildSpec l2 (n + o1.blob.length) with
        | .error e => .error e
        | .ok o2 => .ok ⟨o1.blob ++ o2.blob, o1.index ++ o2.index, o1.offs ++ o2.offs⟩ := by
  induction l1 with
  | nil =>
    intro n
    simp only [List.nil_append, buildSpec]
    cases h2 : buildSpec l2 n with
    | error e => simp [h2]
    | ok o => simp [h2]
  | cons e rest ih =>
    obtain ⟨rec, base, idx⟩ := e
    intro n
    cases hft : getFieldTypes rec with
    | none => simp only [List.cons_append, buildSpec, hft]
    | some tf =>
      obtain ⟨t, fts⟩ := tf
      cases hpk : packRecord rec base idx fts with
      | error e2 => simp only [List.cons_append, buildSpec, hft, hpk]
      | ok bytes =>
        simp only [List.cons_append, buildSpec, hft, hpk, List.append_eq]
        rw [ih (n + bytes.length)]
        cases h1 : buildSpec rest (n + bytes.length) with
        | error e2 => rfl
        | ok o1 =>
          simp only [List.length_append, ← Nat.add_assoc]
          cases h2 : buildSpec l2 (n + bytes.length + o1.blob.length) with
          | error e2 => rfl
          | ok o2 => simp

/-- What a successful `buildSpec` run means: every record encoded, the
blob is the concatenation of the per-record encodings in order, the
index holds each record's `recordHandle`, and the i-th offset is the
base offset plus the sum of the encoded lengths of records `0..i-1`. -/
theorem buildSpec_ok (entries : List (Obj × String × Nat)) :
    ∀ n out, buildSpec entries n = .ok out →
    (∀ e ∈ entries, exOk (encodeRecord e.1 e.2.1 e.2.2) = true) ∧
    out.blob = (entries.map (fun e => encBytes e.1 e.2.1 e.2.2)).flatten ∧
    out.index.map Prod.fst = entries.map (fun e => e.1.find "recordHandle") ∧
    out.index.map Prod.snd =
      (List.range entries.length).map
        (fun i => n + ((entries.take i).map (fun e => encLen e.1 e.2.1 e.2.2)).sum) := by
  induction entries with
  | nil =>
    intro n out h
    simp only [buildSpec] at h
    injection h with h2
    subst h2
    simp
  | cons e rest ih =>
    obtain ⟨rec, base, idx⟩ := e
    intro n out h
    cases hft : getFieldTypes rec with
    | none => simp only [buildSpec, hft] at h; exact Except.noConfusion h
    | some tf =>
      obtain ⟨t, fts⟩ := tf
      cases hpk : packRecord rec base idx fts with
      | error e2 => simp only [buildSpec, hft, hpk] at h; exact Except.noConfusion h
      | ok bytes =>
        simp only [buildSpec, hft, hpk] at h
        cases hs : buildSpec rest (n + bytes.length) with
        | error e2 => rw [hs] at h; cases h
        | ok o =>
          rw [hs] at h
          injection h with h2
          subst h2
          obtain ⟨ih1, ih2, ih3, ih4⟩ := ih (n + bytes.length) o hs
          have henc : encodeRecord rec base idx = .ok bytes := by
            simp [encodeRecord, hft, hpk]
          have hencB : encBytes rec base idx = bytes := by
            simp [encBytes, henc]
          have hencL : encLen rec base idx = bytes.length := by
            simp [encLen, hencB]
          refine ⟨?_, ?_, ?_, ?_⟩
          · intro x hx
            rcases List.mem_cons.mp hx with rfl | hx2
            · simp [exOk, henc]
            · exact ih1 x hx2
          · simp [hencB, ih2]
          · simp [ih3]
          · simp only [List.map_cons, List.length_cons]
            rw [List.range_succ_eq_map]
            simp only [List.map_cons, List.map_map]
            refine List.cons_eq_cons.mpr ⟨by simp, ?_⟩
            rw [ih4]
            apply List.map_congr_left
            intro i _
            simp only [Function.comp_apply, List.take_succ_cons, List.map_cons,
              List.sum_cons, hencL, Nat.add_assoc]

/-- If every record of the list encodes successfully, `buildSpec`
succeeds and emits exactly one index entry per record — handles are
never inspected. -/
theorem buildSpec_len (records : List (Obj × String × Nat)) :
    (∀ e ∈ records, exOk (encodeRecord e.1 e.2.1 e.2.2) = true) →
    ∀ n, ∃ o, buildSpec records n = .ok o ∧ o.index.length = records.length := by
  induction records with
  | nil => intro _ n; exact ⟨⟨[], [], []⟩, rfl, rfl⟩
  | cons e rest ih =>
    obtain ⟨rec, base, idx⟩ := e
    intro h n
    have he := h (rec, base, idx) (List.mem_cons_self _ _)
    cases hft : getFieldTypes rec with
    | none => simp [encodeRecord, hft, exOk] at he
    | some tf =>
      obtain ⟨t, fts⟩ := tf
      cases hpk : packRecord rec base idx fts with
      | error e2 => simp [encodeRecord, hft, hpk, exOk] at he
      | ok bytes =>
        obtain ⟨o, ho, hlen⟩ :=
          ih (fun x hx => h x (List.mem_cons_of_mem _ hx)) (n + bytes.length)
        refine ⟨⟨bytes ++ o.blob, (rec.find "recordHandle", n) :: o.index,
          (base, idx, t, n) :: o.offs⟩, ?_, ?_⟩
        · simp only [buildSpec, hft, hpk, ho]
        · simp [hlen]

/-! ## Claim theorems -/

/-- C1: for every RecordSet successfully assembled by
`build_blob_and_index`, every record encoded, the blob is the
concatenation of the per-record encodings in RecordSet order, the i-th
index entry's offset equals the sum of the encoded byte lengths of
records `0..i-1`, and the offsets are monotonically non-decreasing in
RecordSet order. -/
theorem C1_offsets_running_sum (records : List (Obj × String × Nat)) (out : BuildOut)
    (h : build_blob_and_index records = .ok out) :
    (∀ e ∈ records, exOk (encodeRecord e.1 e.2.1 e.2.2) = true) ∧
    out.blob = (records.map (fun e => encBytes e.1 e.2.1 e.2.2)).flatten ∧
    out.index.map Prod.snd =
      (List.range records.length).map
        (fun i => ((records.take i).map (fun e => encLen e.1 e.2.1 e.2.2)).sum) ∧
    List.Pairwise (· ≤ ·) (out.index.map Prod.snd) := by
  rw [build_eq_spec] at h
  obtain ⟨h1, h2, h3, h4⟩ := buildSpec_ok records 0 out h
  have h4' : out.index.map Prod.snd =
      (List.range records.length).map
        (fun i => ((records.take i).map (fun e => encLen e.1 e.2.1 e.2.2)).sum) := by
    rw [h4]
    apply List.map_congr_left
    intro i _
    simp
  refine ⟨h1, h2, h4', ?_⟩
  rw [h4', List.pairwise_map]
  refine List.Pairwise.imp ?_ (List.pairwise_lt_range records.length)
  intro a b hab
  rw [List.map_take, List.map_take]
  exact sumTake_le _ (le_of_lt hab)

/-- C1 witness: on the two-record set with handles 5 and 6 the build
succeeds, the offsets are `[0, 34]` (34 is the first record's encoded
length), and they are non-decreasing. -/
theorem C1_offsets_witness :
    build_blob_and_index demoSet = .ok demoOut ∧
    demoOut.index.map Prod.snd = [0, 34] ∧
    List.Pairwise (· ≤ ·) ([0, 34] : List Nat) := by
  have hb : build_blob_and_index demoSet = .ok demoOut := by rfl
  have h := C1_offsets_running_sum demoSet demoOut hb
  refine ⟨hb, ?_, by decide⟩
  rw [h.2.2.1]
  decide

/-- C2 counterexample: the claim says permuting the declared field order
changes the output; with two equal-valued fields of the same width, the
swapped schema is a genuine (non-identity) permutation of the original
yet encodes the record to the identical byte sequence. -/
theorem C2_perm_counterexample :
    c2schemaA ≠ c2schemaB ∧ c2schemaA.Perm c2schemaB ∧
    packRecord c2recEq "f" 0 c2schemaA = .ok [5, 5] ∧
    packRecord c2recEq "f" 0 c2schemaB = .ok [5, 5] := by
  refine ⟨by decide, ?_, by rfl, by rfl⟩
  exact List.Perm.swap _ _ _

/-- C2 amended: the encoder processes schema fields strictly in declared
order — for every split of the field list the output is the first
part's bytes followed by the second part's — and permuting the declared
order can change the output (it does here for two differently-valued
fields of different widths), though permuting identically-encoded fields
leaves it unchanged. -/
theorem C2_order_concat :
    (∀ (rec : Obj) (base : String) (idx : Nat) (l1 l2 : List (String × String)),
      packRecord rec base idx (l1 ++ l2) =
        match packRecord rec base idx l1 with
        | .error e => .error e
        | .ok b1 =>
          match packRecord rec base idx l2 with
          | .error e => .error e
          | .ok b2 => .ok (b1 ++ b2)) ∧
    packRecord c2recNe "f" 0 [("a", "uint16"), ("b", "uint8")] = .ok [1, 0, 2] ∧
    packRecord c2recNe "f" 0 [("b", "uint8"), ("a", "uint16")] = .ok [2, 1, 0] :=
  ⟨packRecord_append, by rfl, by rfl⟩

/-- C3 counterexample: `uint64` and the signed widths are not integer
types `pack_field` can encode — a value that fits 64 (or 8 signed) bits
is rejected with the unsupported-field-type error instead of being
emitted as 8 (or 1) little-endian bytes. -/
theorem C3_uint64_counterexample :
    pack_field (.vint 1) "uint64" = .error (.unsupportedFieldType "uint64") ∧
    pack_field (.vint 1) "sint8" = .error (.unsupportedFieldType "sint8") :=
  ⟨rfl, rfl⟩

/-- C3 amended: `pack_field` range-checks and little-endian-encodes
exactly the widths uint8/16/32 (1/2/4 bytes, `OverflowError` when the
value does not fit, and `fromLE` confirms the byte order); every signed
width, `uint64` and `float32` raise the unsupported-field-type error
there.  `generate_binary_data` additionally encodes sint8/16/32 in
two's-complement little-endian, but `uint64`/`sint64` fields contribute
no bytes at all in that variant. -/
theorem C3_supported_widths :
    (∀ n : Int, 0 ≤ n ∧ n < 2 ^ 8 →
      pack_field (.vint n) "uint8" = .ok (leBytes n.toNat 1) ∧ (leBytes n.toNat 1).length = 1) ∧
    (∀ n : Int, ¬(0 ≤ n ∧ n < 2 ^ 8) → pack_field (.vint n) "uint8" = .error .overflowError) ∧
    (∀ n : Int, 0 ≤ n ∧ n < 2 ^ 16 →
      pack_field (.vint n) "uint16" = .ok (leBytes n.toNat 2) ∧ (leBytes n.toNat 2).length = 2) ∧
    (∀ n : Int, ¬(0 ≤ n ∧ n < 2 ^ 16) → pack_field (.vint n) "uint16" = .error .overflowError) ∧
    (∀ n : Int, 0 ≤ n ∧ n < 2 ^ 32 →
      pack_field (.vint n) "uint32" = .ok (leBytes n.toNat 4) ∧ (leBytes n.toNat 4).length = 4) ∧
    (∀ n : Int, ¬(0 ≤ n ∧ n < 2 ^ 32) → pack_field (.vint n) "uint32" = .error .overflowError) ∧
    (∀ len n : Nat, fromLE (leBytes n len) = n % 256 ^ len) ∧
    (∀ v : Value, ∀ t ∈ ["sint8", "sint16", "sint32", "sint64", "uint64", "float32"],
      pack_field v t = .error (.unsupportedFieldType t)) ∧
    (∀ n : Int, -(2 ^ 15) ≤ n ∧ n < 2 ^ 15 →
      genFieldBytes (.vint n) (.vstr "sint16") = .ok (leBytes (n % 2 ^ 16).toNat 2)) ∧
    (∀ v : Value, genFieldBytes v (.vstr "uint64") = .ok []) ∧
    (∀ v : Value, genFieldBytes v (.vstr "sint64") = .ok []) := by
  refine ⟨?_, ?_, ?_, ?_, ?_, ?_, fromLE_leBytes, ?_, ?_, fun v => rfl, fun v => rfl⟩
  · intro n hn
    refine ⟨?_, leBytes_length 1 _⟩
    show intToBytes n 1 = .ok (leBytes n.toNat 1)
    rw [intToBytes, if_pos]
    refine ⟨hn.1, ?_⟩
    have := hn.2
    norm_num at this ⊢
    exact this
  · intro n hn
    show intToBytes n 1 = .error .overflowError
    rw [intToBytes, if_neg]
    intro hc
    refine hn ⟨hc.1, ?_⟩
    have := hc.2
    norm_num at this ⊢
    exact this
  · intro n hn
    refine ⟨?_, leBytes_length 2 _⟩
    show intToBytes n 2 = .ok (leBytes n.toNat 2)
    rw [intToBytes, if_pos]
    refine ⟨hn.1, ?_⟩
    have := hn.2
    norm_num at this ⊢
    exact this
  · intro n hn
    show intToBytes n 2 = .error .overflowError
    rw [intToBytes, if_neg]
    intro hc
    refine hn ⟨hc.1, ?_⟩
    have := hc.2
    norm_num at this ⊢
    exact this
  · intro n hn
    refine ⟨?_, leBytes_length 4 _⟩
    show intToBytes n 4 = .ok (leBytes n.toNat 4)
    rw [intToBytes, if_pos]
    refine ⟨hn.1, ?_⟩
    have := hn.2
    norm_num at this ⊢
    exact this
  · intro n hn
    show intToBytes n 4 = .error .overflowError
    rw [intToBytes, if_neg]
    intro hc
    refine hn ⟨hc.1, ?_⟩
    have := hc.2
    norm_num at this ⊢
    exact this
  · intro v t ht
    fin_cases ht <;> rfl
  · intro n hn
    have he : genFieldBytes (.vint n) (.vstr "sint16") = intToBytesSigned n 2 := rfl
    rw [he]
    have hc : -((256 : Int) ^ 2 / 2) ≤ n ∧ n < (256 : Int) ^ 2 / 2 := by
      constructor
      · have := hn.1
        norm_num at this ⊢
        exact this
      · have := hn.2
        norm_num at this ⊢
        exact this
    rw [intToBytesSigned, if_pos hc]
    norm_num

/-- C3 witness: concrete instances of the supported and unsupported
widths, obtained from the amended theorem. -/
theorem C3_supported_widths_witness :
    pack_field (.vint 7) "uint16" = .ok [7, 0] ∧
    pack_field (.vint 300) "uint8" = .error .overflowError ∧
    pack_field (.vint 0) "uint64" = .error (.unsupportedFieldType "uint64") ∧
    fromLE [7, 0] = 7 % 256 ^ 2 ∧
    genFieldBytes (.vint (-2)) (.vstr "sint16") = .ok [254, 255] ∧
    genFieldBytes (.vint 3) (.vstr "uint64") = .ok [] := by
  have h := C3_supported_widths
  refine ⟨?_, ?_, ?_, ?_, ?_, h.2.2.2.2.2.2.2.2.2.1 (.vint 3)⟩
  · rw [(h.2.2.1 7 (by norm_num)).1]
    rfl
  · exact h.2.1 300 (by norm_num)
  · exact h.2.2.2.2.2.2.2.1 (.vint 0) "uint64" (by simp)
  · have h7 := h.2.2.2.2.2.2.1 2 7
    rwa [show leBytes 7 2 = [7, 0] from rfl] at h7
  · rw [h.2.2.2.2.2.2.2.2.1 (-2) (by norm_num)]
    rfl

/-- C4: for every string value whose encoded form (terminator included)
exceeds 256 bytes, `pack_string` does not fail: the result is the first
255 content bytes plus the terminator — exactly 256 bytes — and the
truncation warning is raised (the Boolean in the result records the
stderr warning); encoding continues normally. -/
theorem C4_truncation (value string_type : String) (encoded : Bytes)
    (hv : value ≠ "")
    (henc : stringHandler string_type value = .ok encoded)
    (hlen : 256 < encoded.length) :
    pack_string value string_type = .ok (encoded.take 255 ++ [0], true) ∧
    (encoded.take 255 ++ [0]).length = 256 := by
  constructor
  · simp only [pack_string, if_neg hv, henc, if_pos hlen]
  · simp only [List.length_append, List.length_take, List.length_cons, List.length_nil]
    omega

/-- C4 witness: the spec's 300-character scenario — the UTF-8 encoding
with terminator is 301 bytes, and `pack_string` yields exactly 255
content bytes plus the terminator, with the warning flag set. -/
theorem C4_truncation_witness :
    pack_string xStr "strUTF-8" = .ok (List.replicate 255 120 ++ [0], true) := by
  have h := C4_truncation xStr "strUTF-8" (utf8Bytes xStr ++ [0])
    (by decide) (by rfl) (by decide)
  rw [h.1]
  rfl

/-- C5 amended: `build_blob_and_index` performs no duplicate-handle
check — a RecordSet whose records all encode successfully assembles
into a blob with one index entry per record, whatever the handles are
(in particular when two records share one). -/
theorem C5_no_duplicate_check (records : List (Obj × String × Nat))
    (h : ∀ e ∈ records, exOk (encodeRecord e.1 e.2.1 e.2.2) = true) :
    (build_blob_and_index records).map (fun o => o.index.length) = .ok records.length := by
  rw [build_eq_spec]
  obtain ⟨o, ho, hlen⟩ := buildSpec_len records h 0
  rw [ho]
  simp [Except.map, hlen]

/-- C5 witness: the duplicate-handle RecordSet assembles successfully
with two index entries. -/
theorem C5_no_duplicate_check_witness :
    (build_blob_and_index dupSet).map (fun o => o.index.length) = .ok 2 := by
  have h := C5_no_duplicate_check dupSet (by decide)
  simpa using h

/-- C5 counterexample: two records that both declare handle 5 do not
raise any duplicate-handle error — the build succeeds and the index
carries the duplicated handle twice. -/
theorem C5_duplicate_counterexample :
    recH5.find "recordHandle" = some (.vint 5) ∧
    recH5b.find "recordHandle" = some (.vint 5) ∧
    (build_blob_and_index dupSet).map (fun o => o.index.map Prod.fst) =
      .ok [some (.vint 5), some (.vint 5)] :=
  ⟨rfl, rfl, rfl⟩

/-- C6 amended: in `build_blob_and_index`, a record of known type that
lacks a declared schema field makes the whole call raise the
missing-field `KeyError` at the first missing field — whatever records
follow — so no blob, index or macro data is returned and no default is
substituted. -/
theorem C6_missing_field_fatal (pref suff : List (Obj × String × Nat)) (rec : Obj)
    (base : String) (idx : Nat) (st : BuildOut) (t : String)
    (l1 l2 : List (String × String)) (f ft : String) (bs : Bytes)
    (hpref : build_blob_and_index pref = .ok st)
    (hty : getFieldTypes rec = some (t, l1 ++ (f, ft) :: l2))
    (hl1 : packRecord rec base idx l1 = .ok bs)
    (hmiss : rec.find f = none) :
    build_blob_and_index (pref ++ (rec, base, idx) :: suff) =
      .error (.missingField f base idx) := by
  have hpk : packRecord rec base idx (l1 ++ (f, ft) :: l2) =
      .error (.missingField f base idx) := by
    rw [packRecord_append, hl1]
    simp only [packRecord, hmiss]
  rw [build_eq_spec] at hpref ⊢
  rw [buildSpec_append, hpref]
  simp only [buildSpec, hty, hpk]

/-- C6 witness: a record that stops after the first two schema fields
makes the build fail with the missing-field error for `PDRType`. -/
theorem C6_missing_field_witness :
    build_blob_and_index [(recMissing, "m", 0)] =
      .error (.missingField "PDRType" "m" 0) := by
  have h := C6_missing_field_fatal [] [] recMissing "m" 0 ⟨[], [], []⟩
    "CompactNumericSensorPDR"
    [("recordHandle", "uint32"), ("PDRHeaderVersion", "uint8")]
    (FIELD_TYPES_CompactNumericSensorPDR.drop 3)
    "PDRType" "uint8" [5, 0, 0, 0, 1]
    (by rfl) (by rfl) (by rfl) (by rfl)
  simpa using h

/-- C6 counterexample: the gen_script encoder does not fail on a missing
schema field — the schema declares `a`, the record lacks it, and
encoding succeeds with the remaining field's bytes. -/
theorem C6_genscript_counterexample :
    (objOf [("b", .vint 1)]).find "a" = none ∧
    generate_binary_data (objOf [("b", .vint 1)])
      (objOf [("a", .vstr "uint8"), ("b", .vstr "uint8")]) = .ok [1] :=
  ⟨rfl, rfl⟩

/-- C7 amended: in `build_blob_and_index`, a record whose declared
`pdr_type` has no `FIELD_TYPES` entry aborts the whole call with the
unknown-type error — whatever records follow — so the record set is
never partially assembled by that function. -/
theorem C7_unknown_type_fatal (pref suff : List (Obj × String × Nat)) (rec : Obj)
    (base : String) (idx : Nat) (st : BuildOut)
    (hpref : build_blob_and_index pref = .ok st)
    (hty : getFieldTypes rec = none) :
    build_blob_and_index (pref ++ (rec, base, idx) :: suff) =
      .error (.unknownPdrType (rec.find "pdr_type") base) := by
  rw [build_eq_spec] at hpref ⊢
  rw [buildSpec_append, hpref]
  simp only [buildSpec, hty]

/-- C7 witness: a record of unknown type aborts the build even though a
fully valid record follows. -/
theorem C7_unknown_type_witness :
    build_blob_and_index [(recBogus, "x", 0), (recH6, "b", 0)] =
      .error (.unknownPdrType (some (.vstr "Bogus")) "x") := by
  have h := C7_unknown_type_fatal [] [(recH6, "b", 0)] recBogus "x" 0 ⟨[], [], []⟩
    (by rfl) (by rfl)
  simpa using h

/-- C7 counterexample: the gen_script assembler does not abort on a
record whose type has no registry entry — `X` is absent from the
registry, yet the run succeeds, the unknown-typed record contributes no
bytes, and assembly continues with the following record's bytes. -/
theorem C7_silent_skip_counterexample :
    c7yaml.lookup "X" = none ∧
    generate_output_binary [[objOf [("file_name", .vstr "f")], c7recX, c7recT]] c7yaml =
      .ok [9] :=
  ⟨rfl, rfl⟩

/-- C8 counterexample: a field declared `float32` produces no bytes at
all in the gen_script encoder (the name matches no branch), and the
`float` branch that does exist emits the null-terminated UTF-8 hex
string of the value — 21 bytes for 1.0 — not a 4-byte IEEE-754
little-endian float. -/
theorem C8_float_counterexample :
    generate_binary_data c8rec c8fts32 = .ok [] ∧
    generate_binary_data c8rec c8ftsFloat = .ok (utf8Bytes "0x1.0000000000000p+0" ++ [0]) ∧
    (utf8Bytes "0x1.0000000000000p+0" ++ [0]).length = 21 :=
  ⟨rfl, rfl, rfl⟩

/-- C8 amended: the gen_script encoder has no `float32` type — a
non-dict field whose declared type is `float32` contributes no bytes to
the output (it is silently skipped, not IEEE-754-encoded). -/
theorem C8_float32_no_bytes (f : String) (v : Value) (fts : Obj)
    (hv : v.isDictB = false)
    (hft : get_value fts f = .vstr "float32") :
    generate_binary_data (objOf [(f, v)]) fts = .ok [] := by
  cases v with
  | vint n => simp [generate_binary_data, objOf, genFieldBytes, hft]
  | vstr s => simp [generate_binary_data, objOf, genFieldBytes, hft]
  | vdict o => simp [Value.isDictB] at hv

/-- C8 witness: a concrete `float32` field is skipped. -/
theorem C8_float32_witness :
    generate_binary_data (objOf [("f", .vint 2)]) c8fts32 = .ok [] :=
  C8_float32_no_bytes "f" (.vint 2) c8fts32 (by rfl) (by rfl)

/-- C9 counterexample: the record has the leaf field `a`, yet
`generate_macros` emits no accessor entry at all for it (top-level
non-dict fields are never visited), contradicting one entry per leaf
field with a computed byte offset. -/
theorem C9_accessor_counterexample :
    (objOf [("a", .vint 1)]).find "a" = some (.vint 1) ∧
    generate_macros (objOf [("a", .vint 1)]) "f" 0 "a" = [] :=
  ⟨rfl, rfl⟩

/-- C9 amended: the accessor metadata the two variants actually emit:
`generate_header` emits, per record, the record-offset macro followed by
exactly one access macro per schema field — each referencing the
record's offset name and the struct member, with no per-field byte
offset computed — while `generate_macros` skips top-level non-dict
fields entirely and, for nested dict fields, binds the probed subfield's
VALUE (not an offset). -/
theorem C9_accessor_shape :
    (∀ (base : String) (idx off : Nat),
      recordHeaderItems base idx "CompactNumericSensorPDR" off =
        .ok (.offsetDef (base ++ "_" ++ toString idx) off ::
          FIELD_TYPES_CompactNumericSensorPDR.map
            (fun p => .fieldAccessDef (base ++ "_" ++ toString idx) p.1
              "CompactNumericSensorPDR"))) ∧
    (∀ (o : Obj) (f : String) (i : Nat) (fn : String) (v : Value), v.isDictB = false →
      generate_macros (.ocons fn v o) f i fn = generate_macros o f i fn) ∧
    (∀ (hdr sf : String) (sv : Value) (f : String) (i : Nat),
      generate_macros (objOf [(hdr, .vdict (objOf [(sf, sv)]))]) f i sf =
        [(f ++ "_" ++ toString i ++ "_" ++ sf, sv)]) := by
  refine ⟨fun base idx off => rfl, ?_, ?_⟩
  · intro o f i fn v hv
    cases v with
    | vint n => simp [generate_macros]
    | vstr s => simp [generate_macros]
    | vdict d => simp [Value.isDictB] at hv
  · intro hdr sf sv f i
    simp [generate_macros, objOf, matchingSubEntries]

/-- C9 witness: concrete instances — the header macros for one record,
a skipped top-level leaf, and a value-bound nested macro. -/
theorem C9_accessor_witness :
    recordHeaderItems "snsr" 1 "CompactNumericSensorPDR" 34 =
      .ok (.offsetDef "snsr_1" 34 ::
        FIELD_TYPES_CompactNumericSensorPDR.map
          (fun p => .fieldAccessDef "snsr_1" p.1 "CompactNumericSensorPDR")) ∧
    generate_macros (.ocons "a" (.vint 3) .onil) "f" 1 "a" = [] ∧
    generate_macros (objOf [("hdr", .vdict (objOf [("a", .vint 99)]))]) "g" 2 "a" =
      [("g_2_a", .vint 99)] := by
  have h := C9_accessor_shape
  refine ⟨h.1 "snsr" 1 34, ?_, ?_⟩
  · have h2 := h.2.1 .onil "f" 1 "a" (.vint 3) rfl
    simpa using h2
  · have h3 := h.2.2 "hdr" "a" (.vint 99) "g" 2
    simpa using h3

/-- C10: `pack_field` accepts only the type names uint8, uint16, uint32
and strUTF8; every other type string is rejected with the
unsupported-field-type error, whatever the value. -/
theorem C10_unsupported_types (ftype : String) (v : Value)
    (h1 : ftype ≠ "uint8") (h2 : ftype ≠ "uint16")
    (h3 : ftype ≠ "uint32") (h4 : ftype ≠ "strUTF8") :
    pack_field v ftype = .error (.unsupportedFieldType ftype) := by
  rw [pack_field, if_neg h1, if_neg h2, if_neg h3, if_neg h4]

/-- C10 witness: the spec's own type names — all signed widths, uint64,
float32 and the other string encodings — are each rejected. -/
theorem C10_unsupported_witness :
    pack_field (.vint 0) "sint8" = .error (.unsupportedFieldType "sint8") ∧
    pack_field (.vint 0) "sint64" = .error (.unsupportedFieldType "sint64") ∧
    pack_field (.vint 0) "uint64" = .error (.unsupportedFieldType "uint64") ∧
    pack_field (.vint 0) "float32" = .error (.unsupportedFieldType "float32") ∧
    pack_field (.vstr "s") "strASCII" = .error (.unsupportedFieldType "strASCII") ∧
    pack_field (.vstr "s") "strUTF16LE" = .error (.unsupportedFieldType "strUTF16LE") ∧
    pack_field (.vstr "s") "strUTF16BE" = .error (.unsupportedFieldType "strUTF16BE") := by
  refine ⟨?_, ?_, ?_, ?_, ?_, ?_, ?_⟩ <;>
    exact C10_unsupported_types _ _ (by decide) (by decide) (by decide) (by decide)
